import Mathlib

/-!
Shallow embedding of the QR-authentication plugin's token lifecycle
(src/src/plugin/server.ts) and proofs about it.

Modelling conventions:
* timestamps are natural numbers (milliseconds since epoch); `new Date()`
  at the time of a handler invocation is the parameter `now`;
* database rows are a Lean structure `QRToken` mirroring the `qrToken`
  schema; the record store is a list of rows, `adapter.findOne` is the
  first row matching the `where` clause, `adapter.update` rewrites every
  matching row, `adapter.delete` removes every matching row;
* `uuidv4()` results are parameters (`fresh`), since the claims are
  independent of the random values chosen;
* JavaScript truthiness on optional strings: `null`/`undefined` and `""`
  are falsy (`strFalsy`); `new Date(null)` compares as time `0`, which is
  modelled by `Option.getD _ 0` on optional timestamps;
* the external session system (`internalAdapter.createSession`) is a
  parameter of type `Option String`: `none` models a creation failure.
-/

/-- An error response: the user-visible message and the HTTP status code,
exactly as produced by `ctx.json({ error: ... }, { status: ... })`. -/
structure ErrResp where
  message : String
  status : Nat
deriving Repr, DecidableEq

/-- A row of the `qrToken` model (schema declared in server.ts lines 52-74). -/
structure QRToken where
  id : String
  token : String
  createdAt : Nat
  expiresAt : Nat
  isUsed : Bool
  userId : Option String := none
  verifiedAt : Option Nat := none
  sessionCreationToken : Option String := none
  sessionCreationTokenExpiresAt : Option Nat := none
deriving Repr, DecidableEq

/-- The record store for the `qrToken` model. -/
abbrev Store := List QRToken

/-- JavaScript truthiness check on an optional string: `!x` is true for
`null`/`undefined` and for the empty string. -/
def strFalsy : Option String → Bool
  | none => true
  | some s => s == ""

/-- `adapter.findOne` on model `qrToken` with `where id = tokenId`. -/
def findToken (st : Store) (tokenId : String) : Option QRToken :=
  st.find? (fun r => r.id == tokenId)

/-- `adapter.findOne` on model `qrToken` with
`where sessionCreationToken = sct`. -/
def findByCreationToken (st : Store) (sct : String) : Option QRToken :=
  st.find? (fun r => r.sessionCreationToken == some sct)

/-- `adapter.delete` on model `qrToken` with `where id = tokenId`. -/
def deleteToken (st : Store) (tokenId : String) : Store :=
  st.filter (fun r => r.id != tokenId)

/-- `adapter.findOne` on model `user` with `where id = uid`, reduced to
whether a user row exists; the user store is the list of existing user ids. -/
def userFound (users : List String) (uid : Option String) : Bool :=
  match uid with
  | none => false
  | some u => users.contains u

/-- Payload of the generated QR code: `{ tokenId, token, serverUrl }`. -/
structure QRPayload where
  tokenId : String
  token : String
  serverUrl : String
deriving Repr, DecidableEq

/-- Success body of the generate endpoint. -/
structure GenerateOk where
  tokenId : String
  qrPayload : QRPayload
  expiresAt : Nat
deriving Repr, DecidableEq

/-- The `/qr/generate` handler (server.ts lines 82-121): store a fresh
`PENDING` row with `expiresAt = now + tokenExpirationMinutes` minutes and
return the QR payload.  `tokenId` and `tok` stand for the two `uuidv4()`
calls. -/
def generateToken (st : Store) (tokenId tok serverUrl : String)
    (now tokenExpirationMinutes : Nat) : Store × GenerateOk :=
  let expiresAt := now + tokenExpirationMinutes * 60 * 1000
  (st ++ [{ id := tokenId, token := tok, createdAt := now, expiresAt := expiresAt,
            isUsed := false }],
   { tokenId := tokenId, qrPayload := ⟨tokenId, tok, serverUrl⟩, expiresAt := expiresAt })

/-- Second-phase TTL hardcoded at server.ts line 180:
`Date.now() + 5 * 60 * 1000`. -/
def secondPhaseTtlMs : Nat := 5 * 60 * 1000

/-- Success body of the verify endpoint (server.ts lines 199-204). -/
structure VerifyOk where
  userId : String
  sessionCreationToken : String
  sessionCreationTokenExpiresAt : Nat
deriving Repr, DecidableEq

/-- Result of the verify endpoint: an error response or the success body. -/
inductive VerifyRes where
  | err (e : ErrResp)
  | ok (v : VerifyOk)
deriving Repr, DecidableEq

/-- The read step of the verify handler: `adapter.findOne` by id
(server.ts lines 144-151).  This is an `await` boundary: concurrent
requests can interleave between this read and the later update. -/
def verifySnapshot (st : Store) (tokenId : String) : Option QRToken :=
  findToken st tokenId

/-- The `adapter.update` issued by a successful verify (server.ts lines
183-197): every row with the given id gets `isUsed := true`, the caller's
identity, `verifiedAt := now` and the fresh session-creation token with
its own TTL. -/
def applyVerifyUpdate (st : Store) (tokenId uid : String) (now : Nat)
    (fresh : String) : Store :=
  st.map (fun q => if q.id = tokenId then
    { q with isUsed := true, userId := some uid, verifiedAt := some now,
             sessionCreationToken := some fresh,
             sessionCreationTokenExpiresAt := some (now + secondPhaseTtlMs) }
    else q)

/-- The checks and effects of the verify handler after the read
(server.ts lines 153-204), operating on the snapshot `snap` taken earlier
but writing into the current store `st`.  Check order as in the source:
not found → token mismatch → expired (evict) → already used → success. -/
def verifyFinish (st : Store) (snap : Option QRToken) (tokenId tok uid : String)
    (now : Nat) (fresh : String) : Store × VerifyRes :=
  match snap with
  | none => (st, .err ⟨"Token not found", 404⟩)
  | some r =>
    if r.token ≠ tok then (st, .err ⟨"Invalid token", 401⟩)
    else if r.expiresAt < now then
      (deleteToken st tokenId, .err ⟨"Token expired", 410⟩)
    else if r.isUsed then (st, .err ⟨"Token already used", 409⟩)
    else (applyVerifyUpdate st tokenId uid now fresh,
          .ok ⟨uid, fresh, now + secondPhaseTtlMs⟩)

/-- The `/qr/verify` handler (server.ts lines 130-205): body-presence
check, session check, then read-then-finish.  `sessionUser` is the
authenticated caller's user id supplied by the session middleware. -/
def verifyToken (st : Store) (tokenId tok : String) (sessionUser : Option String)
    (now : Nat) (fresh : String) : Store × VerifyRes :=
  if tokenId = "" ∨ tok = "" then
    (st, .err ⟨"Token ID and token are required", 400⟩)
  else
    match sessionUser with
    | none => (st, .err ⟨"No authenticated user", 401⟩)
    | some u => verifyFinish st (verifySnapshot st tokenId) tokenId tok u now fresh

/-- Responses of the status endpoint: an error response, the completed
response that carries the session-creation token (server.ts lines
263-270), or the plain response without it (lines 275-281). -/
inductive PollOut where
  | err (e : ErrResp)
  | completedWithToken (userId : String) (sessionCreationToken : String)
      (verifiedAt : Option Nat) (expiresAt : Nat)
  | plain (status : String) (userId : Option String) (verifiedAt : Option Nat)
      (expiresAt : Nat)
deriving Repr, DecidableEq

/-- The session-creation token contained in a status response, if any. -/
def disclosed : PollOut → Option String
  | .completedWithToken _ t _ _ => some t
  | _ => none

/-- The `/qr/status` handler (server.ts lines 213-282): missing-id check,
lookup, first-TTL eviction, then the completed-with-token branch guarded
by user lookup, token truthiness and `sessionCreationTokenExpiresAt > now`,
falling through to the plain `completed`/`pending` response. -/
def pollStatus (st : Store) (users : List String) (tokenId : String)
    (now : Nat) : Store × PollOut :=
  if tokenId = "" then (st, .err ⟨"Token ID required", 400⟩)
  else
    match findToken st tokenId with
    | none => (st, .err ⟨"Token not found", 404⟩)
    | some r =>
      if r.expiresAt < now then
        (deleteToken st tokenId, .err ⟨"Token expired", 410⟩)
      else
        if r.isUsed
            ∧ (userFound users r.userId ∧ ¬ strFalsy r.sessionCreationToken)
            ∧ now < r.sessionCreationTokenExpiresAt.getD 0 then
          (st, .completedWithToken (r.userId.getD "")
            (r.sessionCreationToken.getD "") r.verifiedAt r.expiresAt)
        else
          (st, .plain (if r.isUsed then "completed" else "pending")
            r.userId r.verifiedAt r.expiresAt)

/-- Success body of the claim endpoint (server.ts lines 368-374). -/
structure ClaimOk where
  userId : String
  sessionToken : String
deriving Repr, DecidableEq

/-- Result of the claim endpoint: an error response or the success body. -/
inductive ClaimRes where
  | err (e : ErrResp)
  | ok (v : ClaimOk)
deriving Repr, DecidableEq

/-- The per-row effect of the claim update (server.ts lines 362-365):
only `sessionCreationToken` and `sessionCreationTokenExpiresAt` are
touched, both set to null. -/
def clearRow (q : QRToken) : QRToken :=
  { q with sessionCreationToken := none, sessionCreationTokenExpiresAt := none }

/-- The `adapter.update` issued by a successful claim (server.ts lines
355-366): every row whose `sessionCreationToken` equals the claimed token
gets both second-phase fields cleared. -/
def clearCreationToken (st : Store) (sct : String) : Store :=
  st.map (fun q => if q.sessionCreationToken = some sct then clearRow q else q)

/-- The `/qr/claim-session` handler (server.ts lines 290-382):
missing-token check, lookup by `sessionCreationToken`, verified check
(`!isUsed || !userId`), expiry check (`tokenExpiresAt <= now` fails),
user lookup, external session creation (`newSession`, `none` = failure),
then clear the second-phase fields and answer. -/
def claimSession (st : Store) (users : List String) (sct : String) (now : Nat)
    (newSession : Option String) : Store × ClaimRes :=
  if sct = "" then
    (st, .err ⟨"Session creation token is required", 400⟩)
  else
    match findByCreationToken st sct with
    | none => (st, .err ⟨"Invalid session creation token", 404⟩)
    | some r =>
      if r.isUsed = false ∨ strFalsy r.userId then
        (st, .err ⟨"QR token not properly verified", 400⟩)
      else if r.sessionCreationTokenExpiresAt.getD 0 ≤ now then
        (st, .err ⟨"Session creation token expired", 410⟩)
      else if ¬ userFound users r.userId then
        (st, .err ⟨"User not found", 404⟩)
      else
        match newSession with
        | none => (st, .err ⟨"Failed to create session", 500⟩)
        | some sTok =>
          (clearCreationToken st sct, .ok ⟨r.userId.getD "", sTok⟩)

/-- Two verify calls for the same id racing at the `await` boundary
between `adapter.findOne` and `adapter.update`: both snapshots are taken
before either call finishes, then both finishes run in order.  This is a
schedule the event loop can produce, since the handler holds no lock and
the update's `where` clause checks only the id, not `isUsed`. -/
def twoVerifyInterleaved (st : Store) (tokenId tok uA uB : String) (now : Nat)
    (freshA freshB : String) :
    Store × (VerifyRes × VerifyRes) :=
  let snapA := verifySnapshot st tokenId
  let snapB := verifySnapshot st tokenId
  let resA := verifyFinish st snapA tokenId tok uA now freshA
  let resB := verifyFinish resA.1 snapB tokenId tok uB now freshB
  (resB.1, (resA.2, resB.2))

/-- The record invariant from the data model: an unused row has no
identity, verification time or second-phase token; a used row has an
identity and a verification time. -/
def RecordInv (r : QRToken) : Prop :=
  (r.isUsed = false →
    r.userId = none ∧ r.verifiedAt = none ∧ r.sessionCreationToken = none)
  ∧ (r.isUsed = true → r.userId ≠ none ∧ r.verifiedAt ≠ none)

/-- Every row of the store satisfies the record invariant. -/
def StoreInv (st : Store) : Prop := ∀ r ∈ st, RecordInv r

instance (r : QRToken) : Decidable (RecordInv r) := by
  unfold RecordInv; infer_instance

instance (st : Store) : Decidable (StoreInv st) := by
  unfold StoreInv; infer_instance

/-- A pending row used for concrete evaluations. -/
def rowPending : QRToken :=
  { id := "i1", token := "s", createdAt := 0, expiresAt := 1000, isUsed := false }

/-- A pending row with a short first TTL used for concrete evaluations. -/
def rowPendingShort : QRToken :=
  { id := "i2", token := "s", createdAt := 0, expiresAt := 100, isUsed := false }

/-- A verified row (second phase open until time 100) used for concrete
evaluations. -/
def rowVerified : QRToken :=
  { id := "i1", token := "s", createdAt := 0, expiresAt := 1000, isUsed := true,
    userId := some "u", verifiedAt := some 5, sessionCreationToken := some "S",
    sessionCreationTokenExpiresAt := some 100 }

lemma verifyToken_eq (st : Store) (tokenId tok u : String) (now : Nat)
    (fresh : String) (hid : tokenId ≠ "") (htok : tok ≠ "") :
    verifyToken st tokenId tok (some u) now fresh
      = verifyFinish st (findToken st tokenId) tokenId tok u now fresh := by
  unfold verifyToken verifySnapshot
  rw [if_neg (not_or.mpr ⟨hid, htok⟩)]

/-- Claim C3 counterexample: for a record that is both expired and probed
with a wrong secret, verify answers with the invalid-secret outcome
(`"Invalid token"`, 401), not the expired outcome, because the source
checks the secret before the expiry. -/
theorem verifyToken_expired_wrong_secret_cex :
    verifyToken [rowPendingShort] "i2" "wrong" (some "alice") 200 "F"
      = ([rowPendingShort], .err ⟨"Invalid token", 401⟩) ∧
    (VerifyRes.err ⟨"Invalid token", 401⟩ ≠ VerifyRes.err ⟨"Token expired", 410⟩) := by
  decide

/-- Claim C3 (amended): the verify handler validates in the source's
order — record exists, then secret matches, then not expired (evicting on
expiry), then not already used — each step a terminal failure. -/
theorem verifyToken_check_order (st : Store) (tokenId tok u : String) (now : Nat)
    (fresh : String) (r : QRToken) (hid : tokenId ≠ "") (htok : tok ≠ "") :
    (findToken st tokenId = none →
      verifyToken st tokenId tok (some u) now fresh
        = (st, .err ⟨"Token not found", 404⟩)) ∧
    (findToken st tokenId = some r → r.token ≠ tok →
      verifyToken st tokenId tok (some u) now fresh
        = (st, .err ⟨"Invalid token", 401⟩)) ∧
    (findToken st tokenId = some r → r.token = tok → r.expiresAt < now →
      verifyToken st tokenId tok (some u) now fresh
        = (deleteToken st tokenId, .err ⟨"Token expired", 410⟩)) ∧
    (findToken st tokenId = some r → r.token = tok → now ≤ r.expiresAt →
      r.isUsed = true →
      verifyToken st tokenId tok (some u) now fresh
        = (st, .err ⟨"Token already used", 409⟩)) := by
  refine ⟨?_, ?_, ?_, ?_⟩
  · intro hf
    rw [verifyToken_eq st tokenId tok u now fresh hid htok, hf]
    rfl
  · intro hf hne
    rw [verifyToken_eq st tokenId tok u now fresh hid htok, hf]
    simp only [verifyFinish]
    rw [if_pos hne]
  · intro hf hsec hlt
    rw [verifyToken_eq st tokenId tok u now fresh hid htok, hf]
    simp only [verifyFinish]
    rw [if_neg (not_not_intro hsec), if_pos hlt]
  · intro hf hsec hle hused
    rw [verifyToken_eq st tokenId tok u now fresh hid htok, hf]
    simp only [verifyFinish]
    rw [if_neg (not_not_intro hsec), if_neg (Nat.not_lt.mpr hle)]
    simp [hused]

/-- Claim C3 witness: the amended order at concrete inputs. -/
theorem verifyToken_check_order_witness :
    verifyToken [rowVerified] "i1" "s" (some "bob") 10 "F"
      = ([rowVerified], .err ⟨"Token already used", 409⟩) :=
  (verifyToken_check_order [rowVerified] "i1" "s" "bob" 10 "F" rowVerified
    (by decide) (by decide)).2.2.2 (by decide) (by decide) (by decide) (by decide)

/-- Claim C7 counterexample: a missing record and a wrong secret produce
different user-visible messages and statuses (`"Token not found"`/404
versus `"Invalid token"`/401), so verify does distinguish the two cases. -/
theorem verifyToken_oracle_cex :
    (verifyToken [] "i1" "x" (some "alice") 0 "F").2
      = .err ⟨"Token not found", 404⟩ ∧
    (verifyToken [rowPending] "i1" "x" (some "alice") 0 "F").2
      = .err ⟨"Invalid token", 401⟩ ∧
    (ErrResp.mk "Token not found" 404 ≠ ErrResp.mk "Invalid token" 401) := by
  decide

/-- Claim C7 (amended): for any well-formed authenticated request, verify
answers a missing record with `"Token not found"` (404) and an existing
record with a mismatched secret with `"Invalid token"` (401); the two
user-visible responses are distinct. -/
theorem verifyToken_distinguishes_not_found (st : Store) (tokenId tok u : String)
    (now : Nat) (fresh : String) (hid : tokenId ≠ "") (htok : tok ≠ "") :
    (findToken st tokenId = none →
      (verifyToken st tokenId tok (some u) now fresh).2
        = .err ⟨"Token not found", 404⟩) ∧
    (∀ r, findToken st tokenId = some r → r.token ≠ tok →
      (verifyToken st tokenId tok (some u) now fresh).2
        = .err ⟨"Invalid token", 401⟩) ∧
    (ErrResp.mk "Token not found" 404 ≠ ErrResp.mk "Invalid token" 401) := by
  refine ⟨?_, ?_, by decide⟩
  · intro hf
    rw [verifyToken_eq st tokenId tok u now fresh hid htok, hf]
    rfl
  · intro r hf hne
    rw [verifyToken_eq st tokenId tok u now fresh hid htok, hf]
    simp only [verifyFinish]
    rw [if_pos hne]

/-- Claim C7 witness: the two distinguished outcomes at concrete inputs. -/
theorem verifyToken_distinguishes_not_found_witness :
    (verifyToken [] "i9" "x" (some "alice") 0 "F").2
      = .err ⟨"Token not found", 404⟩ :=
  (verifyToken_distinguishes_not_found [] "i9" "x" "alice" 0 "F"
    (by decide) (by decide)).1 (by decide)

/-- Claim C5: a verify call on a pending, non-expired record with the
matching secret and an authenticated caller updates the record to
`isUsed=true`, `userId=caller`, `verifiedAt=now`, with the fresh
session-creation token expiring at `now + 5` minutes (300000 ms,
independent of the record's own `expiresAt`), and answers with the bound
identity and that token. -/
theorem verifyToken_success_effect (st : Store) (tokenId tok u : String)
    (now : Nat) (fresh : String) (r : QRToken) (hid : tokenId ≠ "")
    (htok : tok ≠ "") (hf : findToken st tokenId = some r)
    (hsec : r.token = tok) (hexp : ¬ r.expiresAt < now)
    (hused : r.isUsed = false) :
    verifyToken st tokenId tok (some u) now fresh
      = (applyVerifyUpdate st tokenId u now fresh,
         .ok ⟨u, fresh, now + secondPhaseTtlMs⟩) ∧
    secondPhaseTtlMs = 5 * 60 * 1000 ∧
    { r with
      isUsed := true
      userId := some u
      verifiedAt := some now
      sessionCreationToken := some fresh
      sessionCreationTokenExpiresAt := some (now + secondPhaseTtlMs) }
      ∈ (verifyToken st tokenId tok (some u) now fresh).1 := by
  have hmain : verifyToken st tokenId tok (some u) now fresh
      = (applyVerifyUpdate st tokenId u now fresh,
         .ok ⟨u, fresh, now + secondPhaseTtlMs⟩) := by
    rw [verifyToken_eq st tokenId tok u now fresh hid htok, hf]
    simp only [verifyFinish]
    rw [if_neg (not_not_intro hsec), if_neg hexp]
    simp [hused]
  refine ⟨hmain, rfl, ?_⟩
  rw [hmain]
  have hrmem : r ∈ st := List.mem_of_find?_eq_some hf
  have hrid : r.id = tokenId := by
    have := List.find?_some hf
    simpa using this
  have : (fun q => if q.id = tokenId then
      { q with
        isUsed := true
        userId := some u
        verifiedAt := some now
        sessionCreationToken := some fresh
        sessionCreationTokenExpiresAt := some (now + secondPhaseTtlMs) }
      else q) r
      = { r with
          isUsed := true
          userId := some u
          verifiedAt := some now
          sessionCreationToken := some fresh
          sessionCreationTokenExpiresAt := some (now + secondPhaseTtlMs) } := by
    simp [hrid]
  rw [applyVerifyUpdate, ← this]
  exact List.mem_map_of_mem _ hrmem

/-- Claim C5 witness: the success effect at a concrete input. -/
theorem verifyToken_success_effect_witness :
    verifyToken [rowPending] "i1" "s" (some "alice") 10 "F"
      = (applyVerifyUpdate [rowPending] "i1" "alice" 10 "F",
         .ok ⟨"alice", "F", 10 + secondPhaseTtlMs⟩) ∧
    secondPhaseTtlMs = 5 * 60 * 1000 ∧
    { rowPending with
      isUsed := true
      userId := some "alice"
      verifiedAt := some 10
      sessionCreationToken := some "F"
      sessionCreationTokenExpiresAt := some (10 + secondPhaseTtlMs) }
      ∈ (verifyToken [rowPending] "i1" "s" (some "alice") 10 "F").1 :=
  verifyToken_success_effect [rowPending] "i1" "s" "alice" 10 "F" rowPending
    (by decide) (by decide) (by decide) (by decide) (by decide) (by decide)

/-- Claim C2 counterexample: a stored record with `isUsed=true` whose
second TTL has elapsed (time 100) while the first TTL has not (time 1000)
is reported `"completed"` by pollStatus at time 200, not `"expired"` —
the handler only falls back to the plain response, it never checks the
second TTL for expiry reporting. -/
theorem pollStatus_second_ttl_completed_cex :
    (pollStatus [rowVerified] ["u"] "i1" 200).2
      = .plain "completed" (some "u") (some 5) 1000 ∧
    (pollStatus [rowVerified] ["u"] "i1" 200).2 ≠ .err ⟨"Token expired", 410⟩ := by
  decide

/-- Claim C2 (amended): pollStatus reports the `"Token expired"` error
exactly when a record is present and its first TTL has elapsed
(`expiresAt < now`), regardless of `isUsed`, and then evicts it; a
missing record is reported `"Token not found"` (404); a used record
whose first TTL is still open but whose second TTL has elapsed is
reported as a plain `"completed"` (without the session-creation token),
not as expired. -/
theorem pollStatus_expiry_characterization (st : Store) (users : List String)
    (tokenId : String) (now : Nat) (hid : tokenId ≠ "") :
    (findToken st tokenId = none →
      pollStatus st users tokenId now = (st, .err ⟨"Token not found", 404⟩)) ∧
    (∀ r, findToken st tokenId = some r → r.expiresAt < now →
      pollStatus st users tokenId now
        = (deleteToken st tokenId, .err ⟨"Token expired", 410⟩)) ∧
    (∀ r, findToken st tokenId = some r → ¬ r.expiresAt < now → r.isUsed = true →
      r.sessionCreationTokenExpiresAt.getD 0 ≤ now →
      pollStatus st users tokenId now
        = (st, .plain "completed" r.userId r.verifiedAt r.expiresAt)) ∧
    ((pollStatus st users tokenId now).2 = .err ⟨"Token expired", 410⟩ →
      ∃ r, findToken st tokenId = some r ∧ r.expiresAt < now) := by
  refine ⟨?_, ?_, ?_, ?_⟩
  · intro hf
    simp [pollStatus, hid, hf]
  · intro r hf hlt
    simp [pollStatus, hid, hf, hlt]
  · intro r hf hnlt hused h2
    have hnlt2 : ¬ now < r.sessionCreationTokenExpiresAt.getD 0 := Nat.not_lt.mpr h2
    simp [pollStatus, hid, hf, hnlt, hnlt2, hused]
  · intro h
    cases hfind : findToken st tokenId with
    | none =>
      have h1 : (pollStatus st users tokenId now).2
          = .err ⟨"Token not found", 404⟩ := by
        simp [pollStatus, hid, hfind]
      rw [h1] at h
      exact absurd h (by decide)
    | some r =>
      by_cases hlt : r.expiresAt < now
      · exact ⟨r, rfl, hlt⟩
      · exfalso
        simp only [pollStatus] at h
        rw [if_neg hid, hfind] at h
        simp only [hlt] at h
        split at h
        · assumption
        · split at h <;> simp at h

/-- Claim C2 witness: the amended behaviour at concrete inputs. -/
theorem pollStatus_expiry_characterization_witness :
    pollStatus [rowVerified] ["u"] "i1" 200
      = ([rowVerified], .plain "completed" (some "u") (some 5) 1000) :=
  (pollStatus_expiry_characterization [rowVerified] ["u"] "i1" 200
    (by decide)).2.2.1 rowVerified (by decide) (by decide) (by decide) (by decide)

/-- Claim C4 counterexample: a record with `used=false` whose first TTL
has elapsed is reported with the `"Token expired"` error (and evicted),
not with `pending`, so "for every record with used=false, pollStatus
reports pending" fails at this input. -/
theorem pollStatus_pending_expired_cex :
    pollStatus [rowPendingShort] [] "i2" 200 = ([], .err ⟨"Token expired", 410⟩) ∧
    (PollOut.err ⟨"Token expired", 410⟩ ≠ .plain "pending" none none 100) := by
  decide

/-- Claim C4 (amended): a record with `used=false` never gets a
session-creation token disclosed, and is reported `pending` whenever its
first TTL has not elapsed (an expired one is reported with the expired
error instead); conversely any disclosed token comes from a `used=true`
record within both TTLs whose stored token it is. -/
theorem pollStatus_disclosure (st : Store) (users : List String)
    (tokenId : String) (now : Nat) :
    (∀ r, findToken st tokenId = some r → r.isUsed = false →
      disclosed (pollStatus st users tokenId now).2 = none ∧
      (tokenId ≠ "" → ¬ r.expiresAt < now →
        (pollStatus st users tokenId now).2
          = .plain "pending" r.userId r.verifiedAt r.expiresAt)) ∧
    (∀ t, disclosed (pollStatus st users tokenId now).2 = some t →
      ∃ r, findToken st tokenId = some r ∧ r.isUsed = true ∧
        r.sessionCreationToken = some t ∧ ¬ r.expiresAt < now ∧
        now < r.sessionCreationTokenExpiresAt.getD 0) := by
  refine ⟨?_, ?_⟩
  · intro r hf hused
    constructor
    · by_cases hid : tokenId = ""
      · simp [pollStatus, hid, disclosed]
      · by_cases hlt : r.expiresAt < now
        · simp [pollStatus, hid, hf, hlt, disclosed]
        · simp [pollStatus, hid, hf, hlt, hused, disclosed]
    · intro hid hlt
      simp [pollStatus, hid, hf, hlt, hused]
  · intro t h
    by_cases hid : tokenId = ""
    · rw [show (pollStatus st users tokenId now).2
          = .err ⟨"Token ID required", 400⟩ from by simp [pollStatus, hid]] at h
      simp [disclosed] at h
    · cases hfind : findToken st tokenId with
      | none =>
        rw [show (pollStatus st users tokenId now).2
            = .err ⟨"Token not found", 404⟩ from by
          simp [pollStatus, hid, hfind]] at h
        simp [disclosed] at h
      | some r =>
        by_cases hlt : r.expiresAt < now
        · rw [show (pollStatus st users tokenId now).2
              = .err ⟨"Token expired", 410⟩ from by
            simp [pollStatus, hid, hfind, hlt]] at h
          simp [disclosed] at h
        · simp only [pollStatus] at h
          rw [if_neg hid, hfind] at h
          simp only [hlt] at h
          split at h
          · exact False.elim (by assumption)
          · split at h
            · rename_i hc
              obtain ⟨hu, ⟨huf, hsf⟩, hex⟩ := hc
              simp only [disclosed] at h
              cases hsct : r.sessionCreationToken with
              | none =>
                rw [hsct] at hsf
                simp [strFalsy] at hsf
              | some s =>
                rw [hsct] at h
                simp at h
                exact ⟨r, rfl, hu, by rw [hsct, h], hlt, hex⟩
            · simp [disclosed] at h

/-- Claim C4 witness: a pending record polls as `pending`. -/
theorem pollStatus_disclosure_witness :
    (pollStatus [rowPending] [] "i1" 10).2 = .plain "pending" none none 1000 :=
  ((pollStatus_disclosure [rowPending] [] "i1" 10).1 rowPending
    (by decide) (by decide)).2 (by decide) (by decide)

lemma claimSession_ok_elim (st st' : Store) (users : List String) (sct : String)
    (now : Nat) (ns : Option String) (o : ClaimOk)
    (h : claimSession st users sct now ns = (st', .ok o)) :
    sct ≠ "" ∧ st' = clearCreationToken st sct ∧
    ∃ r, findByCreationToken st sct = some r ∧ r.isUsed = true ∧
      now < r.sessionCreationTokenExpiresAt.getD 0 ∧
      o.userId = r.userId.getD "" := by
  by_cases hsct : sct = ""
  · rw [claimSession, if_pos hsct] at h
    simp at h
  · rw [claimSession, if_neg hsct] at h
    cases hfind : findByCreationToken st sct with
    | none =>
      rw [hfind] at h
      simp at h
    | some r =>
      rw [hfind] at h
      simp only [] at h
      split at h
      · simp at h
      · split at h
        · simp at h
        · split at h
          · simp at h
          · rename_i hvc hexp huf
            cases ns with
            | none => simp at h
            | some sTok =>
              have hu : r.isUsed = true := by
                rcases not_or.mp hvc with ⟨h1, _⟩
                revert h1
                cases r.isUsed <;> simp
              have hlt : now < r.sessionCreationTokenExpiresAt.getD 0 :=
                Nat.lt_of_not_le hexp
              injection h with hA hB
              injection hB with hv
              exact ⟨hsct, hA.symm, r, rfl, hu, hlt, by rw [← hv]⟩

/-- Claim C9 counterexample: at `now` exactly equal to
`sessionCreationTokenExpiresAt` (time 100) a claim with the matching
token fails as expired (the source rejects when `tokenExpiresAt <= now`),
whereas the claim asserts success whenever `now ≤`
`sessionCreationTokenExpiresAt`. -/
theorem claimSession_boundary_cex :
    claimSession [rowVerified] ["u"] "S" 100 (some "w")
      = ([rowVerified], .err ⟨"Session creation token expired", 410⟩) := by
  decide

/-- Claim C9 (amended): a verified record's claim succeeds exactly while
`now` is strictly below `sessionCreationTokenExpiresAt` and fails with
the expired outcome as soon as `now` reaches it (`now ≥` the expiry,
including equality). -/
theorem claimSession_deadline (st : Store) (users : List String) (sct : String)
    (now : Nat) (s : String) (r : QRToken) (u : String) (e : Nat)
    (hsct : sct ≠ "") (hf : findByCreationToken st sct = some r)
    (hused : r.isUsed = true) (huid : r.userId = some u) (hu : ¬ u = "")
    (hmem : u ∈ users)
    (he : r.sessionCreationTokenExpiresAt = some e) :
    (now < e → claimSession st users sct now (some s)
        = (clearCreationToken st sct, .ok ⟨u, s⟩)) ∧
    (e ≤ now → claimSession st users sct now (some s)
        = (st, .err ⟨"Session creation token expired", 410⟩)) := by
  constructor
  · intro hlt
    simp [claimSession, hsct, hf, hused, huid, strFalsy, hu, userFound, hmem,
      he, Nat.not_le.mpr hlt]
  · intro hle
    simp [claimSession, hsct, hf, hused, huid, strFalsy, hu, he, hle]

/-- Claim C9 witness: success strictly before the second-phase expiry and
failure exactly at it, at concrete inputs. -/
theorem claimSession_deadline_witness :
    claimSession [rowVerified] ["u"] "S" 99 (some "w")
      = (clearCreationToken [rowVerified] "S", .ok ⟨"u", "w"⟩) :=
  (claimSession_deadline [rowVerified] ["u"] "S" 99 "w" rowVerified "u" 100
    (by decide) (by decide) (by decide) (by decide) (by decide) (by decide)
    (by decide)).1 (by decide)

/-- Claim C1: after a successful claim, no stored record carries the
claimed `sessionCreationToken` any more (both second-phase fields were
nulled by the update), so any later claim with the same token fails with
the invalid-token not-found error, leaving the store unchanged. -/
theorem claimSession_single_use (st st' : Store) (users : List String)
    (sct : String) (now now2 : Nat) (ns ns2 : Option String) (o : ClaimOk)
    (h : claimSession st users sct now ns = (st', .ok o)) :
    (∀ q ∈ st, q.sessionCreationToken = some sct → clearRow q ∈ st' ∧
      (clearRow q).sessionCreationToken = none ∧
      (clearRow q).sessionCreationTokenExpiresAt = none) ∧
    (∀ r ∈ st', r.sessionCreationToken ≠ some sct) ∧
    claimSession st' users sct now2 ns2
      = (st', .err ⟨"Invalid session creation token", 404⟩) := by
  obtain ⟨hsct, hst, -⟩ := claimSession_ok_elim st st' users sct now ns o h
  have hcleared : ∀ q ∈ st, q.sessionCreationToken = some sct →
      clearRow q ∈ st' ∧ (clearRow q).sessionCreationToken = none ∧
      (clearRow q).sessionCreationTokenExpiresAt = none := by
    intro q hq hqs
    refine ⟨?_, rfl, rfl⟩
    rw [hst, clearCreationToken]
    have heq : (if q.sessionCreationToken = some sct then clearRow q else q)
        = clearRow q := if_pos hqs
    rw [← heq]
    exact List.mem_map_of_mem _ hq
  have hnone : ∀ r ∈ st', r.sessionCreationToken ≠ some sct := by
    intro r hr
    rw [hst, clearCreationToken] at hr
    obtain ⟨q, hq, hfq⟩ := List.mem_map.mp hr
    by_cases hqs : q.sessionCreationToken = some sct
    · rw [if_pos hqs] at hfq
      rw [← hfq]
      simp [clearRow]
    · rw [if_neg hqs] at hfq
      rw [← hfq]
      exact hqs
  refine ⟨hcleared, hnone, ?_⟩
  have hfind : findByCreationToken st' sct = none := by
    rw [findByCreationToken]
    apply List.find?_eq_none.mpr
    intro r hr
    simpa using hnone r hr
  simp [claimSession, hsct, hfind]

/-- Claim C1 witness: a concrete successful claim followed by a failed
re-claim of the same token. -/
theorem claimSession_single_use_witness :
    (∀ q ∈ ([rowVerified] : Store), q.sessionCreationToken = some "S" →
      clearRow q ∈ clearCreationToken [rowVerified] "S" ∧
      (clearRow q).sessionCreationToken = none ∧
      (clearRow q).sessionCreationTokenExpiresAt = none) ∧
    (∀ r ∈ clearCreationToken [rowVerified] "S",
      r.sessionCreationToken ≠ some "S") ∧
    claimSession (clearCreationToken [rowVerified] "S") ["u"] "S" 20 (some "w2")
      = (clearCreationToken [rowVerified] "S",
         .err ⟨"Invalid session creation token", 404⟩) :=
  claimSession_single_use [rowVerified] (clearCreationToken [rowVerified] "S")
    ["u"] "S" 10 20 (some "w") (some "w2") ⟨"u", "w"⟩ (by decide)

/-- Claim C10: a successful claim keeps every record (same store length),
rewrites only the rows holding the claimed token and only in their two
second-phase fields (`clearRow` touches nothing else), and the claimed
record itself — which had `isUsed=true` — stays present with all other
fields intact. -/
theorem claimSession_frame (st st' : Store) (users : List String)
    (sct : String) (now : Nat) (ns : Option String) (o : ClaimOk)
    (h : claimSession st users sct now ns = (st', .ok o)) :
    st' = clearCreationToken st sct ∧
    st'.length = st.length ∧
    (∀ q ∈ st, q.sessionCreationToken ≠ some sct → q ∈ st') ∧
    (∀ q ∈ st, q.sessionCreationToken = some sct → clearRow q ∈ st') ∧
    (∀ q : QRToken, (clearRow q).id = q.id ∧ (clearRow q).token = q.token ∧
      (clearRow q).createdAt = q.createdAt ∧
      (clearRow q).expiresAt = q.expiresAt ∧
      (clearRow q).isUsed = q.isUsed ∧ (clearRow q).userId = q.userId ∧
      (clearRow q).verifiedAt = q.verifiedAt ∧
      (clearRow q).sessionCreationToken = none ∧
      (clearRow q).sessionCreationTokenExpiresAt = none) ∧
    (∃ r, findByCreationToken st sct = some r ∧ r.isUsed = true ∧
      clearRow r ∈ st') := by
  obtain ⟨hsct, hst, r, hfind, hused, -, -⟩ :=
    claimSession_ok_elim st st' users sct now ns o h
  subst hst
  refine ⟨rfl, ?_, ?_, ?_, ?_, ?_⟩
  · rw [clearCreationToken]
    exact List.length_map st _
  · intro q hq hqs
    rw [clearCreationToken]
    have : (if q.sessionCreationToken = some sct then clearRow q else q) = q :=
      if_neg hqs
    rw [← this]
    exact List.mem_map_of_mem _ hq
  · intro q hq hqs
    rw [clearCreationToken]
    have : (if q.sessionCreationToken = some sct then clearRow q else q)
        = clearRow q := if_pos hqs
    rw [← this]
    exact List.mem_map_of_mem _ hq
  · intro q
    exact ⟨rfl, rfl, rfl, rfl, rfl, rfl, rfl, rfl, rfl⟩
  · refine ⟨r, hfind, hused, ?_⟩
    have hmem : r ∈ st := List.mem_of_find?_eq_some hfind
    have hrs : r.sessionCreationToken = some sct := by
      simpa using List.find?_some hfind
    rw [clearCreationToken]
    have : (if r.sessionCreationToken = some sct then clearRow r else r)
        = clearRow r := if_pos hrs
    rw [← this]
    exact List.mem_map_of_mem _ hmem

/-- Claim C10 witness: the frame condition at a concrete successful
claim. -/
theorem claimSession_frame_witness :
    (clearCreationToken [rowVerified] "S").length = ([rowVerified] : Store).length ∧
    clearRow rowVerified ∈ clearCreationToken [rowVerified] "S" ∧
    (clearRow rowVerified).isUsed = true :=
  have hfr := claimSession_frame [rowVerified]
    (clearCreationToken [rowVerified] "S") ["u"] "S" 10 (some "w") ⟨"u", "w"⟩
    (by decide)
  ⟨hfr.2.1, (hfr.2.2.2.1 rowVerified (by decide) (by decide)), by decide⟩

/-- Claim C6: the verify handler's precondition check and update are not
one atomic unit — the update's `where` clause matches on `id` only, with
no compare-and-set on `isUsed`.  With both `findOne` reads scheduled
before either `update` (an interleaving the event loop permits across the
`await` boundary), two concurrent verify calls with the correct secret
both answer success; only when the calls run sequentially does the second
fail with "already used". -/
theorem twoVerify_both_succeed :
    (twoVerifyInterleaved [rowPending] "i1" "s" "alice" "bob" 10 "FA" "FB").2
      = (.ok ⟨"alice", "FA", 10 + secondPhaseTtlMs⟩,
         .ok ⟨"bob", "FB", 10 + secondPhaseTtlMs⟩) ∧
    (verifyToken (verifyToken [rowPending] "i1" "s" (some "alice") 10 "FA").1
        "i1" "s" (some "bob") 10 "FB").2
      = .err ⟨"Token already used", 409⟩ := by
  decide

lemma recordInv_clearRow (q : QRToken) (h : RecordInv q) :
    RecordInv (clearRow q) :=
  ⟨fun hu => ⟨(h.1 hu).1, (h.1 hu).2.1, rfl⟩, fun hu => h.2 hu⟩

lemma storeInv_delete (st : Store) (tokenId : String) (h : StoreInv st) :
    StoreInv (deleteToken st tokenId) := by
  intro r hr
  exact h r (List.mem_filter.mp hr).1

lemma storeInv_applyVerifyUpdate (st : Store) (tokenId uid : String)
    (now : Nat) (fresh : String) (h : StoreInv st) :
    StoreInv (applyVerifyUpdate st tokenId uid now fresh) := by
  intro r hr
  rw [applyVerifyUpdate] at hr
  obtain ⟨q, hq, hfq⟩ := List.mem_map.mp hr
  rw [← hfq]
  by_cases hqs : q.id = tokenId
  · rw [if_pos hqs]
    exact ⟨fun hu => by simp at hu, fun _ => ⟨by simp, by simp⟩⟩
  · rw [if_neg hqs]
    exact h q hq

lemma storeInv_clear (st : Store) (sct : String) (h : StoreInv st) :
    StoreInv (clearCreationToken st sct) := by
  intro r hr
  rw [clearCreationToken] at hr
  obtain ⟨q, hq, hfq⟩ := List.mem_map.mp hr
  rw [← hfq]
  by_cases hqs : q.sessionCreationToken = some sct
  · rw [if_pos hqs]
    exact recordInv_clearRow q (h q hq)
  · rw [if_neg hqs]
    exact h q hq

/-- Claim C8: every endpoint preserves the record invariant — an unused
row carries no identity, verification time or second-phase token, and a
used row always carries an identity and a verification time (generate
inserts a bare pending row; verify fills all verification fields at
once; pollStatus only evicts; claimSession only clears the second-phase
fields). -/
theorem operations_preserve_inv (st : Store) (users : List String)
    (gid gtok surl : String) (m : Nat) (vid vtok : String)
    (vsess : Option String) (fresh : String) (pid sct : String)
    (ns : Option String) (now : Nat) (hinv : StoreInv st) :
    StoreInv (generateToken st gid gtok surl now m).1 ∧
    StoreInv (verifyToken st vid vtok vsess now fresh).1 ∧
    StoreInv (pollStatus st users pid now).1 ∧
    StoreInv (claimSession st users sct now ns).1 := by
  refine ⟨?_, ?_, ?_, ?_⟩
  · intro r hr
    rcases List.mem_append.mp hr with hl | hl
    · exact hinv r hl
    · rw [List.mem_singleton.mp hl]
      exact ⟨fun _ => ⟨rfl, rfl, rfl⟩, fun hu => by simp at hu⟩
  · rw [verifyToken.eq_def]
    split
    · exact hinv
    · split
      · exact hinv
      · rw [verifyFinish.eq_def]
        split
        · exact hinv
        · split
          · exact hinv
          · split
            · exact storeInv_delete st vid hinv
            · split
              · exact hinv
              · exact storeInv_applyVerifyUpdate st vid _ now fresh hinv
  · rw [pollStatus.eq_def]
    split
    · exact hinv
    · split
      · exact hinv
      · split
        · exact storeInv_delete st pid hinv
        · split
          · exact hinv
          · exact hinv
  · rw [claimSession.eq_def]
    split
    · exact hinv
    · split
      · exact hinv
      · split
        · exact hinv
        · split
          · exact hinv
          · split
            · exact hinv
            · split
              · exact hinv
              · exact storeInv_clear st sct hinv

/-- Claim C8 witness: preservation at a concrete invariant-satisfying
store. -/
theorem operations_preserve_inv_witness :
    StoreInv (generateToken [rowPending] "g" "gs" "srv" 10 5).1 ∧
    StoreInv (verifyToken [rowPending] "i1" "s" (some "alice") 10 "F").1 ∧
    StoreInv (pollStatus [rowPending] [] "i1" 10).1 ∧
    StoreInv (claimSession [rowPending] [] "S" 10 (some "w")).1 :=
  operations_preserve_inv [rowPending] [] "g" "gs" "srv" 5 "i1" "s"
    (some "alice") "F" "i1" "S" (some "w") 10 (by decide)
